import Mathlib

/-!
Shallow embedding of the Box3 workflow automation webhook server (the newer
variant of `webhook-server.js`, `src/unnamed/part_002`) for checking the
specification's claims about event dispatch, the three handler pipelines and
the side-effecting action primitives.

External HTTP effects are modelled by an oracle `GwEnv : Nat -> Except String
String` giving the outcome of the n-th gateway call a handler issues on its
control path (`Except.ok payload` for a call that succeeds and returns
`payload`, `Except.error message` for a call whose promise rejects, which the
handler's try/catch turns into a 500 response). Each handler returns the HTTP
response it sends together with the ordered trace of gateway calls it issued,
recorded at the granularity of the server's own wrapper functions
(`generateWelcomeEmail`, `sendEmailToCustomer`, `updateConversationTags`,
`addLineItem`, ...). The wrappers' fixed system prompts are internal to the AI
gateway primitive and not observable in the trace; the merge computation
inside `updateConversationTags` is modelled separately at store level.
-/

/-- Entry of `conversation._embedded.threads`, restricted to the fields the
server reads: `type`, `body` and `createdAt`. `createdAt` stands for the
parsed timestamp (the numeric value of `new Date(t.createdAt)`) that the
thread sort comparators subtract. -/
structure Thread where
  type : String
  body : String
  createdAt : Nat
deriving DecidableEq

/-- Entry of `conversation.customFields` as read by
`formatCustomFieldsForPrompt` and `getCustomFieldValue`. -/
structure CustomField where
  id : Nat
  name : String
  value : String
deriving DecidableEq

/-- Fields of the inbound conversation payload (`req.body`) that the server
reads. `none` models an absent (undefined/null) field; the JS truthiness
checks at each use site are mirrored where the code performs them.
`customerFirstName` collapses `customer?.first_name` and `mailboxId`
collapses `mailbox?.id`; `threads` collapses `_embedded?.threads || []`. -/
structure Conversation where
  id : Option Nat
  event : Option String
  subject : Option String
  locale : Option String
  customerFirstName : Option String
  user_id : Option Nat
  mailboxId : Option Nat
  threads : List Thread
  customFields : Option (List CustomField)
deriving DecidableEq

/-- An inbound `POST /webhook/event` request: the `x-freescout-event` header
and the conversation object FreeScout sends at the body's root level. -/
structure WebhookRequest where
  headerEvent : Option String
  body : Conversation
deriving DecidableEq

/-- JavaScript `a || b` for possibly-absent strings: `a` unless it is absent
or empty (falsy). -/
def jsOrStr (a b : Option String) : Option String :=
  match a with
  | some s => if s = "" then b else some s
  | none => b

/-- One side-effecting gateway call, recorded at the granularity of the
server's wrapper functions. AI calls record the arguments the handler passes
to the wrapper. -/
inductive GatewayCall where
  /-- call of `generateWelcomeEmail(customerMessage, subject, customerName, language, ...)` -/
  | aiWelcome (customerMessage subject customerName language : String)
  /-- call of `detectIntentWithOpenAI(conversationText, subject)` -/
  | aiIntent (conversationText subject : String)
  /-- call of `generateDraftReply(conversationHistory, subject, assignedUserId, ...)` -/
  | aiDraft (conversationHistory subject : String) (assignedUserId : Option Nat)
  /-- call of `queryOnyxAI(question)` -/
  | onyxQuery (question : String)
  /-- a `message` thread posted by `sendEmailToCustomer` (no `scheduledAt`) or
  `sendDelayedEmailToCustomer` (with `scheduledAt`); the `subject` arguments of
  those wrappers are not part of the posted request body and are omitted -/
  | sendMessage (conversationId : Nat) (body : String) (scheduledAt : Option Nat)
  /-- call of `updateConversationTags(conversationId, newTags)` -/
  | addTags (conversationId : Nat) (newTags : List String)
  /-- call of `addNote(conversationId, noteText)` -/
  | addNote (conversationId : Nat) (text : String)
  /-- call of `addLineItem(conversationId, actionText)` (timeline entry) -/
  | addLineItem (conversationId : Nat) (text : String)
  /-- call of `createDraftReply(conversationId, draftText, assignedUserId)` -/
  | createDraft (conversationId : Nat) (draftText : String) (user : Nat)
deriving DecidableEq

/-- Outcome oracle for the gateway calls of one dispatch: the n-th call on the
handler's control path succeeds with the given payload or rejects with the
given error message. -/
abbrev GwEnv := Nat → Except String String

/-- JSON response sent by a handler, together with the HTTP status code.
Every JSON field any handler ever sets is a field here; `none` marks a field
absent from that particular response. -/
structure HttpResponse where
  httpStatus : Nat
  status : String
  message : Option String
  conversation_id : Option Nat
  mailbox_id : Option Nat
  intent : Option String
  email_length : Option Nat
  analyzed_text_length : Option Nat
  draft_length : Option Nat
  upload_request_delay : Option String
deriving DecidableEq

/-- Response `res.status(code).json({ status: 'error', message: msg })`. -/
def errResp (code : Nat) (msg : String) : HttpResponse :=
  ⟨code, "error", some msg, none, none, none, none, none, none, none⟩

/-- JavaScript `[...new Set(l)]` via an accumulator of elements already seen:
the list with later duplicates removed, first occurrences kept in order. -/
def jsSetDedupAux (seen : List String) : List String → List String
  | [] => []
  | x :: xs => if x ∈ seen then jsSetDedupAux seen xs else x :: jsSetDedupAux (x :: seen) xs

/-- JavaScript `[...new Set(l)]`. -/
def jsSetDedup (l : List String) : List String :=
  jsSetDedupAux [] l

/-- Store-level model of `updateConversationTags` (part_002 lines 414-462):
the GET returns the entity's currently stored tag names `existingTags`, and
the function PUTs back `[...new Set([...existingTags, ...newTags])]`. The
result is the new stored tag list. -/
def updateConversationTags (existingTags newTags : List String) : List String :=
  jsSetDedup (existingTags ++ newTags)

/-- JavaScript `conversation.subject || ''`. -/
def convSubject (c : Conversation) : String :=
  c.subject.getD ""

/-- JavaScript `conversation.customer?.first_name || 'klant'`. -/
def welcomeCustomerName (c : Conversation) : String :=
  match c.customerFirstName with
  | some n => if n = "" then "klant" else n
  | none => "klant"

/-- JavaScript `conversation.locale || 'nl'`. -/
def convLanguage (c : Conversation) : String :=
  match c.locale with
  | some l => if l = "" then "nl" else l
  | none => "nl"

/-- Filter `t => t.type === 'customer' || t.type === 'message'` applied to
the thread list by `handleWelcomeGenerate` and `handleIntentDetect`. -/
def customerThreads (threads : List Thread) : List Thread :=
  threads.filter fun t => t.type == "customer" || t.type == "message"

/-- Step of the ascending stable sort-and-take-first: the accumulated earliest
entry is replaced only when the candidate is strictly earlier, so ties keep
the element earlier in payload order, exactly as a stable ascending sort
followed by `[0]`. -/
def pickEarlier (best u : Thread) : Thread :=
  if u.createdAt < best.createdAt then u else best

/-- Step of the descending stable sort-and-take-first: the accumulated latest
entry is replaced only when the candidate is strictly later, so ties keep the
element earlier in payload order, exactly as a stable descending sort
followed by `[0]`. -/
def pickLater (best u : Thread) : Thread :=
  if best.createdAt < u.createdAt then u else best

/-- Model of `.sort((a, b) => new Date(a.createdAt) - new Date(b.createdAt))[0]`. -/
def firstByCreatedAt : List Thread → Option Thread
  | [] => none
  | t :: ts => some (ts.foldl pickEarlier t)

/-- Model of `.sort((a, b) => new Date(b.createdAt) - new Date(a.createdAt))[0]`. -/
def latestByCreatedAt : List Thread → Option Thread
  | [] => none
  | t :: ts => some (ts.foldl pickLater t)

/-- The `firstCustomerMessage` selection of `handleWelcomeGenerate` (part_002
lines 1030-1032). -/
def firstCustomerMessage (threads : List Thread) : Option Thread :=
  firstByCreatedAt (customerThreads threads)

/-- The `latestCustomerThread` selection of `handleIntentDetect` (part_002
lines 1206-1208). -/
def latestCustomerThread (threads : List Thread) : Option Thread :=
  latestByCreatedAt (customerThreads threads)

/-- Synthetic placeholder used when the welcome handler finds no first
customer message (part_002 line 1041). -/
def syntheticWelcomeMessage (subject : String) : String :=
  "New lead imported. Subject: " ++ subject ++ ". Customer has not sent a message yet."

/-- The `customerMessage` the welcome handler feeds to the AI gateway: the
body of the earliest customer thread, or the synthetic placeholder. -/
def welcomeCustomerMessage (c : Conversation) : String :=
  match firstCustomerMessage c.threads with
  | some t => t.body
  | none => syntheticWelcomeMessage (convSubject c)

/-- Entry `FORM_ID: 9` of `CUSTOM_FIELD_MAP` (internal tracking). -/
def CUSTOM_FIELD_MAP_FORM_ID : Nat := 9

/-- Entry `ACTIVE_STEP: 10` of `CUSTOM_FIELD_MAP` (internal workflow state). -/
def CUSTOM_FIELD_MAP_ACTIVE_STEP : Nat := 10

/-- Entry `RESTORE_LINK: 27` of `CUSTOM_FIELD_MAP`. -/
def CUSTOM_FIELD_MAP_RESTORE_LINK : Nat := 27

/-- The `excludedFieldIds` list of `formatCustomFieldsForPrompt` (part_002
lines 157-161): the hard-coded internal-tracking field ids. -/
def excludedFieldIds : List Nat :=
  [CUSTOM_FIELD_MAP_FORM_ID, CUSTOM_FIELD_MAP_ACTIVE_STEP, CUSTOM_FIELD_MAP_RESTORE_LINK]

/-- JavaScript `s.trim()`: the string with leading and trailing whitespace
characters removed. -/
def jsTrim (s : String) : String :=
  String.mk (((s.data.dropWhile Char.isWhitespace).reverse.dropWhile Char.isWhitespace).reverse)

/-- The two chained filters of `formatCustomFieldsForPrompt`: first
`field.value && field.value.trim() !== ''`, then
`!excludedFieldIds.includes(field.id)`. -/
def nonEmptyCustomFields (fields : List CustomField) : List CustomField :=
  (fields.filter fun field => field.value != "" && jsTrim field.value != "").filter
    fun field => !(excludedFieldIds.contains field.id)

/-- The per-field line `- ${field.name}: ${field.value}`. -/
def customFieldLine (field : CustomField) : String :=
  "- " ++ field.name ++ ": " ++ field.value

/-- Model of `formatCustomFieldsForPrompt(conversation)` (part_002 lines
151-174). -/
def formatCustomFieldsForPrompt (conversation : Conversation) : String :=
  match conversation.customFields with
  | none => ""
  | some fields =>
    if fields.length = 0 then ""
    else
      let nonEmptyFields :=
        String.intercalate "\n" ((nonEmptyCustomFields fields).map customFieldLine)
      if nonEmptyFields.length = 0 then ""
      else
        "\n\n=== CUSTOMER DATA (Custom Fields) ===\n" ++ nonEmptyFields
          ++ "\n=== END OF CUSTOMER DATA ==="

/-- Model of `calculateScheduledDateTime(delayValue, delayUnit)` (part_002
lines 847-856), with the current time passed in explicitly and all times in
milliseconds since epoch: the delay table lookup `{...}[delayUnit] || 0`
falls back to a zero delay for an unrecognized unit. -/
def calculateScheduledDateTime (nowMs delayValue : Nat) (delayUnit : String) : Nat :=
  nowMs +
    (if delayUnit = "minutes" then delayValue * 60 * 1000
     else if delayUnit = "hours" then delayValue * 60 * 60 * 1000
     else if delayUnit = "days" then delayValue * 24 * 60 * 60 * 1000
     else 0)

/-- The English upload-request (Email 2) body template of
`handleWelcomeGenerate` (part_002 lines 1060-1101), verbatim; braces of the
`customer.fullName` placeholders are escaped. -/
def uploadRequestBodyEn : String :=
  "<p>Dear \x7b%customer.fullName%\x7d,</p>\n\n<p>To make your objection based on actual returns viable, we need more than just your tax return. The Dutch Tax Authority calculates with fictitious percentages, but we want to calculate with what actually happened.</p>\n\n<p>Please reply to this email with the documents listed below. In your response, please clearly indicate which tax year this concerns.</p>\n\n<h3>1. Income Tax Return</h3>\n<p>The PDF of the submitted tax return for the relevant year.</p>\n<p><strong>Why:</strong> This is our starting point to see how the Tax Authority has calculated your wealth.</p>\n<p><strong>Where to find:</strong> You can download this by logging into My Tax Authority (under the 'Income Tax' tab).</p>\n\n<h3>2. Bank Accounts (Interest & Currency)</h3>\n<p>An overview of actually received interest and any currency results.</p>\n<p><strong>Why:</strong> We must prove that your actual savings interest is lower than the notional return used by the tax authority.</p>\n<p><strong>Where to find:</strong> This is in the annual financial overview you can download from your banking app or internet banking.</p>\n\n<h3>3. Investments</h3>\n<p>An overview with opening balance (Jan 1), closing balance (Dec 31), any deposits/withdrawals, and received dividends.</p>\n<p><strong>Why:</strong> Returns consist not only of dividends, but also of price gains or losses. By comparing opening and closing balances (adjusted for deposits), we calculate your exact wealth growth.</p>\n<p><strong>Where to find:</strong> Consult the tax annual overview of your investment account or broker.</p>\n\n<h3>4. Real Estate & Other Assets</h3>\n<p>The WOZ value on January 1 of the relevant year AND that of the following year (T+1). If rented: an overview of rental income.</p>\n<p><strong>Why:</strong> For real estate, total return counts: that's the value increase (indirect return) plus rental income (direct return).</p>\n<p><strong>Where to find:</strong> On the WOZ assessment from the municipality or via wozwaardeloket.nl.</p>\n\n<h3>5. Debts</h3>\n<p>An overview of debts and interest paid.</p>\n<p><strong>Why:</strong> The interest you pay on debts (in box 3) reduces your actual return. We include this in the calculation in favor of your result.</p>\n<p><strong>Where to find:</strong> In the annual statement from your mortgage provider or lender.</p>\n\n<p><strong>How to submit your documents securely:</strong></p>\n\n<p><strong>Option 1 — Via email</strong><br>\nReply to this email and attach your documents.<br>\nAllowed file formats: PDF, JPG, PNG, DOC, DOCX.</p>\n\n<p><strong>Option 2 — Via our secure upload environment (recommended)</strong><br>\nUpload your documents securely via our secure environment:<br>\n👉 <a href=\"https://automail.jandebelastingman.nl/help/2796044459/tickets\">Klik hier om documenten veilig te uploaden</a></p>\n\n<p>Once we have these documents complete, we will start the analysis within 1-2 business days.</p>"

/-- The Dutch upload-request (Email 2) body template of `handleWelcomeGenerate`
(part_002 lines 1102-1143), verbatim. -/
def uploadRequestBodyNl : String :=
  "<p>Beste \x7b%customer.fullName%\x7d,</p>\n\n<p>Om uw bezwaar op basis van werkelijk rendement kansrijk te maken, hebben wij meer nodig dan alleen uw belastingaangifte. De Belastingdienst rekent met fictieve percentages, maar wij willen rekenen met wat er écht is gebeurd.</p>\n\n<p>Wilt u deze e-mail beantwoorden met de onderstaande documenten? Vermeld in uw reactie s.v.p. ook duidelijk om welk belastingjaar het gaat.</p>\n\n<h3>1. De aangifte inkomstenbelasting</h3>\n<p>De PDF van de ingediende aangifte van het betreffende jaar.</p>\n<p><strong>Waarom:</strong> Dit is ons startpunt om te zien hoe de Belastingdienst uw vermogen nu heeft berekend.</p>\n<p><strong>Waar te vinden:</strong> U kunt deze downloaden door in te loggen op Mijn Belastingdienst (onder het tabblad 'Inkomstenbelasting').</p>\n\n<h3>2. Bankrekeningen (Rente & Valuta)</h3>\n<p>Een overzicht van de daadwerkelijk ontvangen rente en eventuele valutaresultaten.</p>\n<p><strong>Waarom:</strong> Wij moeten aantonen dat uw werkelijk ontvangen spaarrente lager is dan het forfaitaire rendement waar de fiscus mee rekent.</p>\n<p><strong>Waar te vinden:</strong> Dit staat in het financieel jaaroverzicht dat u kunt downloaden in uw bankieren-app of via internetbankieren.</p>\n\n<h3>3. Beleggingen</h3>\n<p>Een overzicht met de beginstand (1 jan), eindstand (31 dec), eventuele stortingen/onttrekkingen en de ontvangen dividenden.</p>\n<p><strong>Waarom:</strong> Rendement bestaat niet alleen uit dividend, maar ook uit koerswinst of -verlies. Door de begin- en eindstand te vergelijken (gecorrigeerd voor stortingen), berekenen we uw exacte vermogensgroei.</p>\n<p><strong>Waar te vinden:</strong> Raadpleeg hiervoor het fiscale jaaroverzicht van uw beleggingsrekening of broker.</p>\n\n<h3>4. Vastgoed & overige bezittingen</h3>\n<p>De WOZ-waarde op 1 januari van het betreffende jaar én die van het jaar erna (T+1). Indien verhuurd: een overzicht van de huuropbrengsten.</p>\n<p><strong>Waarom:</strong> Voor vastgoed telt het totaalrendement: dat is de waardestijging (indirect rendement) plus de huurinkomsten (direct rendement).</p>\n<p><strong>Waar te vinden:</strong> Op de WOZ-beschikking van de gemeente of via wozwaardeloket.nl.</p>\n\n<h3>5. Schulden</h3>\n<p>Een overzicht van de schulden en de betaalde rente.</p>\n<p><strong>Waarom:</strong> De rente die u betaalt over schulden (in box 3) verlaagt uw werkelijke rendement. Dit nemen we mee in de berekening ten gunste van uw resultaat.</p>\n<p><strong>Waar te vinden:</strong> In de jaaropgave van uw hypotheekverstrekker of kredietverlener.</p>\n\n<p><strong>U kunt uw documenten op twee manieren veilig aanleveren:</strong></p>\n\n<p><strong>Optie 1 — Via e-mail</strong><br>\nBeantwoord deze e-mail en voeg uw documenten toe.<br>\nToegestane bestandsformaten: PDF, JPG, PNG, DOC, DOCX.</p>\n\n<p><strong>Optie 2 — Via onze beveiligde uploadomgeving (aanbevolen)</strong><br>\nUpload uw documenten veilig via onze beveiligde omgeving:<br>\n👉 <a href=\"https://automail.jandebelastingman.nl/help/2796044459/tickets\">Klik hier om documenten veilig te uploaden</a></p>\n\n<p>Zodra wij deze stukken compleet hebben, starten wij binnen 1-2 werkdagen met de analyse.</p>"

/-- The upload-request body selected by `language === 'en' ? ... : ...`. -/
def uploadRequestBody (language : String) : String :=
  if language = "en" then uploadRequestBodyEn else uploadRequestBodyNl

/-- The timeline-entry text the welcome handler posts (part_002 line 1159):
note that it reports a 5 minute delay. -/
def welcomeLineItemText (welcomeEmailBody : String) : String :=
  "Email 1: Welcome email sent (AI-generated, " ++ toString welcomeEmailBody.length
    ++ " chars) | Email 2: Upload request scheduled (5 minute delay)"

/-- The welcome handler's success response (part_002 lines 1166-1172): note
that `upload_request_delay` and `message` report a 5 minute delay. -/
def welcomeSuccessResponse (conversationId emailLength : Nat) : HttpResponse :=
  ⟨200, "success",
    some "Welcome email sent and upload request scheduled with 5 minute delay",
    some conversationId, none, none, some emailLength, none, none, some "5 minutes"⟩

/-- Model of `handleWelcomeGenerate(conversation, res)` (part_002 lines
1008-1181). Oracle indices follow the trace position of each call on the
single linear control path; a rejected call propagates to the handler's
catch, which sends the 500 response, so no later call is attempted. -/
def handleWelcomeGenerate (env : GwEnv) (nowMs : Nat) (conversation : Conversation) :
    HttpResponse × List GatewayCall :=
  match conversation.id with
  | none => (errResp 400 "conversation_id is required", [])
  | some conversationId =>
    let subject := convSubject conversation
    let customerName := welcomeCustomerName conversation
    let language := convLanguage conversation
    let customerMessage := welcomeCustomerMessage conversation
    let c0 := GatewayCall.aiWelcome customerMessage subject customerName language
    match env 0 with
    | .error m => (errResp 500 m, [c0])
    | .ok welcomeEmailBody =>
      let c1 := GatewayCall.sendMessage conversationId welcomeEmailBody none
      match env 1 with
      | .error m => (errResp 500 m, [c0, c1])
      | .ok _ =>
        let c2 := GatewayCall.sendMessage conversationId (uploadRequestBody language)
          (some (calculateScheduledDateTime nowMs 30 "minutes"))
        match env 2 with
        | .error m => (errResp 500 m, [c0, c1, c2])
        | .ok _ =>
          let c3 := GatewayCall.addTags conversationId ["DOCS_REQUESTED"]
          match env 3 with
          | .error m => (errResp 500 m, [c0, c1, c2, c3])
          | .ok _ =>
            let c4 := GatewayCall.addLineItem conversationId
              (welcomeLineItemText welcomeEmailBody)
            match env 4 with
            | .error m => (errResp 500 m, [c0, c1, c2, c3, c4])
            | .ok _ =>
              (welcomeSuccessResponse conversationId welcomeEmailBody.length,
                [c0, c1, c2, c3, c4])

/-- The intent handler's 400 response when no thread passes the customer
filter (part_002 lines 1212-1216); unlike the other 400s it carries the
conversation id. -/
def noCustomerMessageResponse (conversationId : Nat) : HttpResponse :=
  ⟨400, "error", some "No customer message found in conversation", some conversationId,
    none, none, none, none, none, none⟩

/-- The intent handler's success response (part_002 lines 1237-1243). -/
def intentSuccessResponse (conversationId : Nat) (mailboxId : Option Nat)
    (detectedIntent : String) (textLength : Nat) : HttpResponse :=
  ⟨200, "success", none, some conversationId, mailboxId, some detectedIntent,
    none, some textLength, none, none⟩

/-- Model of `handleIntentDetect(conversation, res)` (part_002 lines
1186-1252). -/
def handleIntentDetect (env : GwEnv) (conversation : Conversation) :
    HttpResponse × List GatewayCall :=
  match conversation.id with
  | none => (errResp 400 "conversation_id is required", [])
  | some conversationId =>
    let subject := convSubject conversation
    match latestCustomerThread conversation.threads with
    | none => (noCustomerMessageResponse conversationId, [])
    | some latest =>
      let conversationText := latest.body
      let c0 := GatewayCall.aiIntent conversationText subject
      match env 0 with
      | .error m => (errResp 500 m, [c0])
      | .ok detectedIntent =>
        let c1 := GatewayCall.addTags conversationId [detectedIntent]
        match env 1 with
        | .error m => (errResp 500 m, [c0, c1])
        | .ok _ =>
          let c2 := GatewayCall.addLineItem conversationId
            ("Intent detected: " ++ detectedIntent)
          match env 2 with
          | .error m => (errResp 500 m, [c0, c1, c2])
          | .ok _ =>
            (intentSuccessResponse conversationId conversation.mailboxId detectedIntent
              conversationText.length, [c0, c1, c2])

/-- Filter `t => t.type === 'customer' || t.type === 'message' || t.type ===
'reply'` of `handleDraftGenerate`. -/
def draftThreads (threads : List Thread) : List Thread :=
  threads.filter fun t => t.type == "customer" || t.type == "message" || t.type == "reply"

/-- Stable insertion step by `createdAt` for the ascending full sort. -/
def insertByCreatedAt (u : Thread) : List Thread → List Thread
  | [] => [u]
  | v :: vs => if u.createdAt < v.createdAt then u :: v :: vs else v :: insertByCreatedAt u vs

/-- Stable ascending sort of the thread list by `createdAt`, modelling the
stable `Array.prototype.sort` with comparator `new Date(a.createdAt) - new
Date(b.createdAt)`. -/
def sortByCreatedAt (threads : List Thread) : List Thread :=
  threads.foldr insertByCreatedAt []

/-- The per-thread history line `[${sender}]: ${t.body}` where `sender` is
`Customer` for customer threads and `Agent` otherwise. -/
def threadHistoryLine (t : Thread) : String :=
  "[" ++ (if t.type = "customer" then "Customer" else "Agent") ++ "]: " ++ t.body

/-- The `conversationHistory` built by `handleDraftGenerate` (part_002 lines
1280-1287). -/
def draftConversationHistory (threads : List Thread) : String :=
  String.intercalate "\n\n" ((sortByCreatedAt (draftThreads threads)).map threadHistoryLine)

/-- The Onyx query `conversationHistory.split('\n\n').pop() ||
conversationHistory` of `generateDraftReply`. -/
def onyxCustomerQuery (conversationHistory : String) : String :=
  let lastPart := ((conversationHistory.splitOn "\n\n").getLast?).getD ""
  if lastPart = "" then conversationHistory else lastPart

/-- JavaScript `assignedUserId || 1` of `createDraftReply`. -/
def jsUserOr1 (userId : Option Nat) : Nat :=
  match userId with
  | some u => if u = 0 then 1 else u
  | none => 1

/-- The draft handler's success response (part_002 lines 1301-1306). -/
def draftSuccessResponse (conversationId draftLength : Nat) : HttpResponse :=
  ⟨200, "success", some "Draft reply created successfully", some conversationId, none,
    none, none, none, some draftLength, none⟩

/-- Model of `handleDraftGenerate(conversation, res)` (part_002 lines
1257-1315). `onyxConfigured` is the truthiness of `CONFIG.onyxAiApiKey`; when
the assigned user is the Intake Agent (id 22) and Onyx is configured, the
handler issues one extra retrieval call, whose failure `queryOnyxAI` catches
itself (it degrades to an empty document context and never rejects), so the
oracle's slot for it is consumed without branching. -/
def handleDraftGenerate (onyxConfigured : Bool) (env : GwEnv) (conversation : Conversation) :
    HttpResponse × List GatewayCall :=
  match conversation.id with
  | none => (errResp 400 "conversation_id is required", [])
  | some conversationId =>
    let userId := conversation.user_id
    let conversationHistory := draftConversationHistory conversation.threads
    let subject := convSubject conversation
    if (userId == some 22) && onyxConfigured then
      let c0 := GatewayCall.onyxQuery (onyxCustomerQuery conversationHistory)
      let c1 := GatewayCall.aiDraft conversationHistory subject userId
      match env 1 with
      | .error m => (errResp 500 m, [c0, c1])
      | .ok draftReply =>
        let c2 := GatewayCall.createDraft conversationId draftReply (jsUserOr1 userId)
        match env 2 with
        | .error m => (errResp 500 m, [c0, c1, c2])
        | .ok _ => (draftSuccessResponse conversationId draftReply.length, [c0, c1, c2])
    else
      let c0 := GatewayCall.aiDraft conversationHistory subject userId
      match env 0 with
      | .error m => (errResp 500 m, [c0])
      | .ok draftReply =>
        let c1 := GatewayCall.createDraft conversationId draftReply (jsUserOr1 userId)
        match env 1 with
        | .error m => (errResp 500 m, [c0, c1])
        | .ok _ => (draftSuccessResponse conversationId draftReply.length, [c0, c1])

/-- The 400 message of the `/webhook/event` route when the event name is
falsy (part_002 lines 962-967). -/
def eventRequiredMessage : String :=
  "event name is required (in x-freescout-event header or body)"

/-- The route's response on an event name with no configured handler
(part_002 lines 988-994): HTTP 200 with status `success`. -/
def unknownEventResponse (event : String) : HttpResponse :=
  ⟨200, "success", some ("Event received but no handler configured for: " ++ event),
    none, none, none, none, none, none, none⟩

/-- The three event names the route's switch dispatches to a handler. -/
def registeredEventNames : List String :=
  ["workflow.convo.box3.welcome.generate", "workflow.convo.box3.intent.detect",
    "workflow.convo.box3.draft.generate"]

/-- Model of the `POST /webhook/event` route (part_002 lines 950-1003): the
event name is `req.headers['x-freescout-event'] || req.body.event`; a falsy
name yields the 400 validation response, a registered name dispatches to its
handler, anything else yields the no-handler success response. -/
def webhookEventRoute (onyxConfigured : Bool) (env : GwEnv) (nowMs : Nat)
    (req : WebhookRequest) : HttpResponse × List GatewayCall :=
  match jsOrStr req.headerEvent req.body.event with
  | none => (errResp 400 eventRequiredMessage, [])
  | some event =>
    if event = "" then (errResp 400 eventRequiredMessage, [])
    else if event = "workflow.convo.box3.welcome.generate" then
      handleWelcomeGenerate env nowMs req.body
    else if event = "workflow.convo.box3.intent.detect" then
      handleIntentDetect env req.body
    else if event = "workflow.convo.box3.draft.generate" then
      handleDraftGenerate onyxConfigured env req.body
    else (unknownEventResponse event, [])

/-- Oracle under which every gateway call succeeds with payload `OK`. -/
def envAllOk : GwEnv := fun _ => Except.ok "OK"

/-- Oracle under which the first two gateway calls succeed and the third (the
scheduled upload-request message of the welcome pipeline) rejects. -/
def envThirdFails : GwEnv :=
  fun n => if n < 2 then Except.ok "OK" else Except.error "scheduled send failed"

/-- Conversation payload with no id at all. -/
def convNoId : Conversation :=
  ⟨none, none, some "Tax question", none, none, none, none, [], none⟩

/-- Request dispatching `convNoId` to the welcome event. -/
def reqWelcomeNoId : WebhookRequest :=
  ⟨some "workflow.convo.box3.welcome.generate", convNoId⟩

/-- Minimal conversation payload with id 1. -/
def convId1 : Conversation :=
  ⟨some 1, none, none, none, none, none, none, [], none⟩

/-- Request whose event name is the empty string. -/
def reqEmptyEvent : WebhookRequest :=
  ⟨some "", convId1⟩

/-- Request with the unregistered event name `foo.bar`. -/
def reqFooBar : WebhookRequest :=
  ⟨some "foo.bar", convId1⟩

/-- The end-to-end scenario's conversation: entity 42, subject `Tax
question`, one customer message `Hello, I need help`. -/
def conv42 : Conversation :=
  ⟨some 42, none, some "Tax question", some "nl", some "Anna", none, some 3,
    [⟨"customer", "Hello, I need help", 100⟩], none⟩

/-- Request dispatching `conv42` to the welcome event. -/
def reqWelcome42 : WebhookRequest :=
  ⟨some "workflow.convo.box3.welcome.generate", conv42⟩

/-- Conversation with an id but an empty thread sequence (lead import with no
message yet). -/
def convEmptyThreads : Conversation :=
  ⟨some 7, none, some "WOZ bezwaar", none, none, none, none, [], none⟩

/-- Conversation whose only thread is an agent `message` (as posted by the
server itself); no customer-authored thread exists. -/
def convAgentOnly : Conversation :=
  ⟨some 5, none, some "Welkom", none, none, none, none,
    [⟨"message", "Welkom bij Box 3", 10⟩], none⟩

/-- A customer thread created at time 1. -/
def thCustomer1 : Thread := ⟨"customer", "hi", 1⟩

/-- An agent `message` thread created later, at time 2. -/
def thAgentMessage2 : Thread := ⟨"message", "agent reply", 2⟩

/-- The claim C9 input mapping verbatim: ids 1, 2, 3. -/
def conv123 : Conversation :=
  ⟨some 11, none, none, none, none, none, none, [],
    some [⟨1, "Internal", "x"⟩, ⟨2, "WOZ", "  "⟩, ⟨3, "Savings", "1000"⟩]⟩

/-- The C9 scenario with the internal field keyed at id 9 (`FORM_ID`), a
member of the code's hard-coded exclusion set. -/
def conv9 : Conversation :=
  ⟨some 11, none, none, none, none, none, none, [],
    some [⟨9, "Internal", "x"⟩, ⟨2, "WOZ", "  "⟩, ⟨3, "Savings", "1000"⟩]⟩

/-- Whether a gateway call is an `addTags` or a timeline-entry call. -/
def isTagOrTimelineCall : GatewayCall → Bool
  | GatewayCall.addTags _ _ => true
  | GatewayCall.addLineItem _ _ => true
  | _ => false

/-- Whether a gateway call is a call of an AI-completion wrapper. -/
def isAiCall : GatewayCall → Bool
  | GatewayCall.aiWelcome _ _ _ _ => true
  | GatewayCall.aiIntent _ _ => true
  | GatewayCall.aiDraft _ _ _ => true
  | _ => false

/-- Membership in the dedup accumulator run: an element is kept iff it occurs
in the input and was not already seen. -/
theorem jsSetDedupAux_mem (a : String) :
    ∀ (l seen : List String), a ∈ jsSetDedupAux seen l ↔ a ∈ l ∧ a ∉ seen := by
  intro l
  induction l with
  | nil => intro seen; simp [jsSetDedupAux]
  | cons x xs ih =>
    intro seen
    by_cases hx : x ∈ seen
    · simp only [jsSetDedupAux, if_pos hx, ih, List.mem_cons]
      constructor
      · rintro ⟨h1, h2⟩
        exact ⟨Or.inr h1, h2⟩
      · rintro ⟨h1, h2⟩
        rcases h1 with rfl | h1
        · exact absurd hx h2
        · exact ⟨h1, h2⟩
    · simp only [jsSetDedupAux, if_neg hx, List.mem_cons, ih]
      constructor
      · rintro (rfl | ⟨h1, h2⟩)
        · exact ⟨Or.inl rfl, hx⟩
        · exact ⟨Or.inr h1, fun hs => h2 (Or.inr hs)⟩
      · rintro ⟨rfl | h1, h2⟩
        · exact Or.inl rfl
        · by_cases hax : a = x
          · exact Or.inl hax
          · refine Or.inr ⟨h1, fun hs => ?_⟩
            rcases hs with rfl | hs
            · exact hax rfl
            · exact h2 hs

/-- The dedup accumulator run never emits a duplicate. -/
theorem jsSetDedupAux_nodup :
    ∀ (l seen : List String), (jsSetDedupAux seen l).Nodup := by
  intro l
  induction l with
  | nil => intro seen; simp [jsSetDedupAux]
  | cons x xs ih =>
    intro seen
    by_cases hx : x ∈ seen
    · simpa only [jsSetDedupAux, if_pos hx] using ih seen
    · simp only [jsSetDedupAux, if_neg hx]
      refine List.nodup_cons.mpr ⟨fun hmem => ?_, ih _⟩
      exact ((jsSetDedupAux_mem x xs (x :: seen)).mp hmem).2 (List.mem_cons_self x seen)

/-- A run over a list all of whose elements were already seen emits nothing. -/
theorem jsSetDedupAux_eq_nil :
    ∀ (m seen : List String), (∀ x ∈ m, x ∈ seen) → jsSetDedupAux seen m = [] := by
  intro m
  induction m with
  | nil => intro seen _; rfl
  | cons x xs ih =>
    intro seen h
    have hx : x ∈ seen := h x (List.mem_cons_self _ _)
    simp only [jsSetDedupAux, if_pos hx]
    exact ih seen fun y hy => h y (List.mem_cons_of_mem _ hy)

/-- Appending elements that are all already seen or already in the list does
not change the dedup run. -/
theorem jsSetDedupAux_append_absorb :
    ∀ (l m seen : List String), (∀ x ∈ m, x ∈ seen ∨ x ∈ l) →
      jsSetDedupAux seen (l ++ m) = jsSetDedupAux seen l := by
  intro l
  induction l with
  | nil =>
    intro m seen h
    simp only [List.nil_append]
    have : ∀ x ∈ m, x ∈ seen := fun x hx => (h x hx).resolve_right (by simp)
    simp [jsSetDedupAux, jsSetDedupAux_eq_nil m seen this]
  | cons x xs ih =>
    intro m seen h
    by_cases hx : x ∈ seen
    · simp only [List.cons_append, jsSetDedupAux, if_pos hx]
      refine ih m seen fun y hy => ?_
      rcases h y hy with h1 | h2
      · exact Or.inl h1
      · rcases List.mem_cons.mp h2 with rfl | h3
        · exact Or.inl hx
        · exact Or.inr h3
    · simp only [List.cons_append, jsSetDedupAux, if_neg hx]
      congr 1
      refine ih m (x :: seen) fun y hy => ?_
      rcases h y hy with h1 | h2
      · exact Or.inl (List.mem_cons_of_mem _ h1)
      · rcases List.mem_cons.mp h2 with rfl | h3
        · exact Or.inl (List.mem_cons_self _ _)
        · exact Or.inr h3

/-- A dedup run over a duplicate-free list disjoint from the seen accumulator
is the identity. -/
theorem jsSetDedupAux_eq_self :
    ∀ (l seen : List String), l.Nodup → (∀ x ∈ l, x ∉ seen) →
      jsSetDedupAux seen l = l := by
  intro l
  induction l with
  | nil => intro seen _ _; rfl
  | cons x xs ih =>
    intro seen hnd hdisj
    have hx : x ∉ seen := hdisj x (List.mem_cons_self _ _)
    simp only [jsSetDedupAux, if_neg hx]
    congr 1
    refine ih (x :: seen) (List.nodup_cons.mp hnd).2 fun y hy hmem => ?_
    rcases List.mem_cons.mp hmem with rfl | hs
    · exact (List.nodup_cons.mp hnd).1 hy
    · exact hdisj y (List.mem_cons_of_mem _ hy) hs

/-- The descending-sort step keeps either its accumulator or its candidate. -/
theorem pickLater_cases (a u : Thread) : pickLater a u = a ∨ pickLater a u = u := by
  unfold pickLater
  by_cases h : a.createdAt < u.createdAt
  · exact Or.inr (if_pos h)
  · exact Or.inl (if_neg h)

/-- The descending-sort step never decreases below its accumulator. -/
theorem pickLater_le_left (a u : Thread) : a.createdAt ≤ (pickLater a u).createdAt := by
  unfold pickLater
  by_cases h : a.createdAt < u.createdAt
  · rw [if_pos h]; exact Nat.le_of_lt h
  · rw [if_neg h]

/-- The descending-sort step never decreases below its candidate. -/
theorem pickLater_le_right (a u : Thread) : u.createdAt ≤ (pickLater a u).createdAt := by
  unfold pickLater
  by_cases h : a.createdAt < u.createdAt
  · rw [if_pos h]
  · rw [if_neg h]; exact Nat.le_of_not_lt h

/-- A `pickLater` fold returns its seed or a list element. -/
theorem foldl_pickLater_mem :
    ∀ (ts : List Thread) (a : Thread), ts.foldl pickLater a = a ∨ ts.foldl pickLater a ∈ ts := by
  intro ts
  induction ts with
  | nil => intro a; exact Or.inl rfl
  | cons u ts ih =>
    intro a
    rcases ih (pickLater a u) with h | h
    · rcases pickLater_cases a u with hc | hc
      · exact Or.inl (by simpa [hc] using h)
      · refine Or.inr ?_
        rw [List.foldl_cons, h, hc]
        exact List.mem_cons_self _ _
    · exact Or.inr (List.mem_cons_of_mem _ (by simpa using h))

/-- A `pickLater` fold dominates its seed and every list element. -/
theorem foldl_pickLater_le :
    ∀ (ts : List Thread) (a : Thread),
      a.createdAt ≤ (ts.foldl pickLater a).createdAt
        ∧ ∀ u ∈ ts, u.createdAt ≤ (ts.foldl pickLater a).createdAt := by
  intro ts
  induction ts with
  | nil => intro a; exact ⟨Nat.le_refl _, by simp⟩
  | cons u ts ih =>
    intro a
    obtain ⟨hseed, hmem⟩ := ih (pickLater a u)
    refine ⟨Nat.le_trans (pickLater_le_left a u) hseed, ?_⟩
    intro v hv
    rcases List.mem_cons.mp hv with rfl | hv
    · exact Nat.le_trans (pickLater_le_right a v) hseed
    · exact hmem v hv

/-- What `latestByCreatedAt` returns: an element of the list that no element
exceeds in `createdAt`. -/
theorem latestByCreatedAt_spec (l : List Thread) (t : Thread)
    (h : latestByCreatedAt l = some t) :
    t ∈ l ∧ ∀ u ∈ l, u.createdAt ≤ t.createdAt := by
  cases l with
  | nil => simp [latestByCreatedAt] at h
  | cons a ts =>
    simp only [latestByCreatedAt, Option.some.injEq] at h
    subst h
    constructor
    · rcases foldl_pickLater_mem ts a with h | h
      · rw [h]; exact List.mem_cons_self _ _
      · exact List.mem_cons_of_mem _ h
    · intro u hu
      rcases List.mem_cons.mp hu with rfl | hu
      · exact (foldl_pickLater_le ts u).1
      · exact (foldl_pickLater_le ts a).2 u hu

/-- All five welcome-pipeline gateway calls succeed: the handler issues
exactly the five calls in declared order and sends the success response. -/
theorem handleWelcomeGenerate_all_ok (env : GwEnv) (nowMs : Nat) (conv : Conversation)
    (cid : Nat) (w r1 r2 r3 r4 : String)
    (hid : conv.id = some cid) (h0 : env 0 = Except.ok w) (h1 : env 1 = Except.ok r1)
    (h2 : env 2 = Except.ok r2) (h3 : env 3 = Except.ok r3) (h4 : env 4 = Except.ok r4) :
    handleWelcomeGenerate env nowMs conv
      = (welcomeSuccessResponse cid w.length,
        [GatewayCall.aiWelcome (welcomeCustomerMessage conv) (convSubject conv)
            (welcomeCustomerName conv) (convLanguage conv),
          GatewayCall.sendMessage cid w none,
          GatewayCall.sendMessage cid (uploadRequestBody (convLanguage conv))
            (some (calculateScheduledDateTime nowMs 30 "minutes")),
          GatewayCall.addTags cid ["DOCS_REQUESTED"],
          GatewayCall.addLineItem cid (welcomeLineItemText w)]) := by
  simp [handleWelcomeGenerate, hid, h0, h1, h2, h3, h4]

/-- C1: for every inbound payload that lacks an entity (conversation)
identifier, dispatching any of the three registered events returns the 400
validation-error outcome (`conversation_id is required`) with an empty action
trace: no AI, sendMessage, addTags, addNote or timeline gateway call is
issued. -/
theorem c1_missing_entity_id_no_side_effects (onyxConfigured : Bool) (env : GwEnv)
    (nowMs : Nat) (req : WebhookRequest) (event : String)
    (hev : jsOrStr req.headerEvent req.body.event = some event)
    (hreg : event ∈ registeredEventNames)
    (hid : req.body.id = none) :
    webhookEventRoute onyxConfigured env nowMs req
      = (errResp 400 "conversation_id is required", []) := by
  unfold webhookEventRoute
  rw [hev]
  simp only [registeredEventNames, List.mem_cons, List.not_mem_nil, or_false] at hreg
  rcases hreg with rfl | rfl | rfl
  · simp [handleWelcomeGenerate, hid]
  · simp [handleIntentDetect, hid]
  · simp [handleDraftGenerate, hid]

/-- Witness for C1 at a concrete id-less payload dispatched to the welcome
event. -/
theorem c1_missing_entity_id_no_side_effects_witness :
    webhookEventRoute false envAllOk 0 reqWelcomeNoId
      = (errResp 400 "conversation_id is required", []) :=
  c1_missing_entity_id_no_side_effects false envAllOk 0 reqWelcomeNoId
    "workflow.convo.box3.welcome.generate" rfl (by decide) rfl

/-- C2 counterexample: the empty string is an event name that is not one of
the three registered names, yet dispatching it yields the 400
`event name is required` error response (status `error`), not the recognized
no-op success response the claim requires for every unregistered name. -/
theorem c2_empty_event_name_is_error :
    "" ∉ registeredEventNames
      ∧ webhookEventRoute false envAllOk 0 reqEmptyEvent
          = (errResp 400 eventRequiredMessage, [])
      ∧ (errResp 400 eventRequiredMessage).status = "error"
      ∧ errResp 400 eventRequiredMessage ≠ unknownEventResponse "" := by
  refine ⟨by decide, rfl, rfl, by decide⟩

/-- C2 amended: for every inbound event whose name is nonempty and not one of
the three registered names, dispatch yields the HTTP 200 success no-op
response (`Event received but no handler configured for: ...`) and issues
zero gateway calls; an absent or empty event name instead yields the 400
validation error. -/
theorem c2_unknown_event_is_noop (onyxConfigured : Bool) (env : GwEnv) (nowMs : Nat)
    (req : WebhookRequest) (event : String)
    (hev : jsOrStr req.headerEvent req.body.event = some event)
    (hne : event ≠ "")
    (hreg : event ∉ registeredEventNames) :
    webhookEventRoute onyxConfigured env nowMs req = (unknownEventResponse event, []) := by
  unfold webhookEventRoute
  rw [hev]
  simp only [registeredEventNames, List.mem_cons, List.not_mem_nil, or_false, not_or] at hreg
  obtain ⟨h1, h2, h3⟩ := hreg
  simp [hne, h1, h2, h3]

/-- Witness for the amended C2 at the unregistered name `foo.bar`. -/
theorem c2_unknown_event_is_noop_witness :
    webhookEventRoute false envAllOk 0 reqFooBar = (unknownEventResponse "foo.bar", []) :=
  c2_unknown_event_is_noop false envAllOk 0 reqFooBar "foo.bar" rfl (by decide) (by decide)

/-- C3: `updateConversationTags` has merge semantics and is idempotent: on an
entity with stored tags `{}`, the calls with `{A}` then `{A, B}` (in either
order) leave exactly `A` and `B`, once each; in general the written-back list
is duplicate-free, its members are exactly the union of stored and requested
tags, and repeating a call with the same tag set changes nothing. -/
theorem c3_addTags_merge_idempotent :
    (updateConversationTags (updateConversationTags [] ["A"]) ["A", "B"] = ["A", "B"]
      ∧ updateConversationTags (updateConversationTags [] ["A", "B"]) ["A"] = ["A", "B"]
      ∧ (updateConversationTags (updateConversationTags [] ["A"]) ["A", "B"]).count "A" = 1
      ∧ (updateConversationTags (updateConversationTags [] ["A"]) ["A", "B"]).count "B" = 1)
    ∧ (∀ stored ts : List String, (updateConversationTags stored ts).Nodup)
    ∧ (∀ (stored ts : List String) (x : String),
        x ∈ updateConversationTags stored ts ↔ x ∈ stored ∨ x ∈ ts)
    ∧ (∀ stored ts : List String,
        updateConversationTags (updateConversationTags stored ts) ts
          = updateConversationTags stored ts) := by
  refine ⟨⟨by decide, by decide, by decide, by decide⟩, ?_, ?_, ?_⟩
  · intro stored ts
    exact jsSetDedupAux_nodup _ _
  · intro stored ts x
    unfold updateConversationTags jsSetDedup
    rw [jsSetDedupAux_mem]
    simp [List.mem_append]
  · intro stored ts
    unfold updateConversationTags jsSetDedup
    rw [jsSetDedupAux_append_absorb]
    · refine jsSetDedupAux_eq_self _ _ (jsSetDedupAux_nodup _ _) ?_
      intro y _
      simp
    · intro x hx
      refine Or.inr ((jsSetDedupAux_mem x (stored ++ ts) []).mpr ⟨?_, by simp⟩)
      exact List.mem_append_right _ hx

/-- C4 counterexample: on the end-to-end conversation, when the immediate
sendMessage succeeds and the scheduled sendMessage rejects, the welcome
pipeline does not proceed to `addTags` or the timeline entry and does not
produce a partial-failure outcome with per-step results: it stops after the
third call and sends the 500 error response. -/
theorem c4_scheduled_send_failure_aborts_counterexample :
    handleWelcomeGenerate envThirdFails 0 conv42
      = (errResp 500 "scheduled send failed",
        [GatewayCall.aiWelcome "Hello, I need help" "Tax question" "Anna" "nl",
          GatewayCall.sendMessage 42 "OK" none,
          GatewayCall.sendMessage 42 uploadRequestBodyNl (some 1800000)])
      ∧ ((handleWelcomeGenerate envThirdFails 0 conv42).2.all
          fun c => !isTagOrTimelineCall c) = true
      ∧ (handleWelcomeGenerate envThirdFails 0 conv42).1.status = "error" := by
  exact ⟨rfl, rfl, rfl⟩

/-- C4 amended: when the immediate sendMessage succeeds and the scheduled
sendMessage fails, the welcome handler aborts instead of continuing: the
rejection propagates to the handler's catch, the outcome is the 500 error
response carrying the rejection message (not `PartialFailure`), no per-step
results are recorded, and neither `addTags` nor the timeline entry is
attempted. -/
theorem c4_scheduled_send_failure_aborts (env : GwEnv) (nowMs : Nat)
    (conv : Conversation) (cid : Nat) (w r1 m : String)
    (hid : conv.id = some cid) (h0 : env 0 = Except.ok w) (h1 : env 1 = Except.ok r1)
    (h2 : env 2 = Except.error m) :
    handleWelcomeGenerate env nowMs conv
      = (errResp 500 m,
        [GatewayCall.aiWelcome (welcomeCustomerMessage conv) (convSubject conv)
            (welcomeCustomerName conv) (convLanguage conv),
          GatewayCall.sendMessage cid w none,
          GatewayCall.sendMessage cid (uploadRequestBody (convLanguage conv))
            (some (calculateScheduledDateTime nowMs 30 "minutes"))]) := by
  simp [handleWelcomeGenerate, hid, h0, h1, h2]

/-- Witness for the amended C4 at the concrete end-to-end conversation. -/
theorem c4_scheduled_send_failure_aborts_witness :
    handleWelcomeGenerate envThirdFails 0 conv42
      = (errResp 500 "scheduled send failed",
        [GatewayCall.aiWelcome (welcomeCustomerMessage conv42) (convSubject conv42)
            (welcomeCustomerName conv42) (convLanguage conv42),
          GatewayCall.sendMessage 42 "OK" none,
          GatewayCall.sendMessage 42 (uploadRequestBody (convLanguage conv42))
            (some (calculateScheduledDateTime 0 30 "minutes"))]) :=
  c4_scheduled_send_failure_aborts envThirdFails 0 conv42 42 "OK" "OK"
    "scheduled send failed" rfl rfl rfl rfl

/-- C5: on a conversation with an entity id and an empty thread sequence, the
welcome handler does not fail on the no-initial-message branch: the AI
gateway is still invoked, with the synthetic placeholder derived from the
subject line as the customer message, the immediate sendMessage is still
attempted, and the response is never the 400 validation error. -/
theorem c5_no_initial_message_synthetic_fallback (env : GwEnv) (nowMs : Nat)
    (conv : Conversation) (cid : Nat) (w : String)
    (hid : conv.id = some cid) (hth : conv.threads = [])
    (h0 : env 0 = Except.ok w) :
    ((handleWelcomeGenerate env nowMs conv).2.take 2
        = [GatewayCall.aiWelcome (syntheticWelcomeMessage (convSubject conv))
            (convSubject conv) (welcomeCustomerName conv) (convLanguage conv),
          GatewayCall.sendMessage cid w none])
      ∧ (handleWelcomeGenerate env nowMs conv).1.httpStatus ≠ 400 := by
  have hmsg : welcomeCustomerMessage conv = syntheticWelcomeMessage (convSubject conv) := by
    unfold welcomeCustomerMessage firstCustomerMessage customerThreads
    rw [hth]
    rfl
  cases e1 : env 1 with
  | error m1 => simp [handleWelcomeGenerate, hid, h0, e1, hmsg, errResp]
  | ok r1 =>
    cases e2 : env 2 with
    | error m2 => simp [handleWelcomeGenerate, hid, h0, e1, e2, hmsg, errResp]
    | ok r2 =>
      cases e3 : env 3 with
      | error m3 => simp [handleWelcomeGenerate, hid, h0, e1, e2, e3, hmsg, errResp]
      | ok r3 =>
        cases e4 : env 4 with
        | error m4 => simp [handleWelcomeGenerate, hid, h0, e1, e2, e3, e4, hmsg, errResp]
        | ok r4 =>
          simp [handleWelcomeGenerate, hid, h0, e1, e2, e3, e4, hmsg,
            welcomeSuccessResponse]

/-- Witness for C5 at a concrete conversation with an empty thread list. -/
theorem c5_no_initial_message_synthetic_fallback_witness :
    ((handleWelcomeGenerate envAllOk 0 convEmptyThreads).2.take 2
        = [GatewayCall.aiWelcome (syntheticWelcomeMessage (convSubject convEmptyThreads))
            (convSubject convEmptyThreads) (welcomeCustomerName convEmptyThreads)
            (convLanguage convEmptyThreads),
          GatewayCall.sendMessage 7 "OK" none])
      ∧ (handleWelcomeGenerate envAllOk 0 convEmptyThreads).1.httpStatus ≠ 400 :=
  c5_no_initial_message_synthetic_fallback envAllOk 0 convEmptyThreads 7 "OK" rfl rfl rfl

/-- C6: dispatching the welcome event on an entity with exactly one customer
thread, when every gateway call succeeds, issues exactly one AI-completion
call, one immediate sendMessage, one scheduled sendMessage, one
`addTags(["DOCS_REQUESTED"])` and one timeline entry, strictly in that order,
and the outcome is the HTTP 200 success response. -/
theorem c6_welcome_end_to_end_success (onyxConfigured : Bool) (env : GwEnv) (nowMs : Nat)
    (req : WebhookRequest) (cid : Nat) (th : Thread) (w r1 r2 r3 r4 : String)
    (hev : jsOrStr req.headerEvent req.body.event
      = some "workflow.convo.box3.welcome.generate")
    (hid : req.body.id = some cid)
    (hth : req.body.threads = [th])
    (hty : th.type = "customer")
    (h0 : env 0 = Except.ok w) (h1 : env 1 = Except.ok r1) (h2 : env 2 = Except.ok r2)
    (h3 : env 3 = Except.ok r3) (h4 : env 4 = Except.ok r4) :
    webhookEventRoute onyxConfigured env nowMs req
      = (welcomeSuccessResponse cid w.length,
        [GatewayCall.aiWelcome th.body (convSubject req.body)
            (welcomeCustomerName req.body) (convLanguage req.body),
          GatewayCall.sendMessage cid w none,
          GatewayCall.sendMessage cid (uploadRequestBody (convLanguage req.body))
            (some (calculateScheduledDateTime nowMs 30 "minutes")),
          GatewayCall.addTags cid ["DOCS_REQUESTED"],
          GatewayCall.addLineItem cid (welcomeLineItemText w)])
      ∧ (welcomeSuccessResponse cid w.length).status = "success"
      ∧ (welcomeSuccessResponse cid w.length).httpStatus = 200 := by
  have hmsg : welcomeCustomerMessage req.body = th.body := by
    unfold welcomeCustomerMessage firstCustomerMessage customerThreads
    rw [hth]
    simp [hty, firstByCreatedAt]
  have hroute : webhookEventRoute onyxConfigured env nowMs req
      = handleWelcomeGenerate env nowMs req.body := by
    unfold webhookEventRoute
    rw [hev]
    simp
  refine ⟨?_, rfl, rfl⟩
  rw [hroute, ← hmsg]
  exact handleWelcomeGenerate_all_ok env nowMs req.body cid w r1 r2 r3 r4 hid h0 h1 h2 h3 h4

/-- Witness for C6 at the concrete end-to-end scenario: entity 42, subject
`Tax question`, one customer message `Hello, I need help`, all gateway calls
succeeding. -/
theorem c6_welcome_end_to_end_success_witness :
    webhookEventRoute false envAllOk 0 reqWelcome42
      = (welcomeSuccessResponse 42 2,
        [GatewayCall.aiWelcome "Hello, I need help" (convSubject conv42)
            (welcomeCustomerName conv42) (convLanguage conv42),
          GatewayCall.sendMessage 42 "OK" none,
          GatewayCall.sendMessage 42 (uploadRequestBody (convLanguage conv42))
            (some (calculateScheduledDateTime 0 30 "minutes")),
          GatewayCall.addTags 42 ["DOCS_REQUESTED"],
          GatewayCall.addLineItem 42 (welcomeLineItemText "OK")])
      ∧ (welcomeSuccessResponse 42 2).status = "success"
      ∧ (welcomeSuccessResponse 42 2).httpStatus = 200 :=
  c6_welcome_end_to_end_success false envAllOk 0 reqWelcome42 42
    ⟨"customer", "Hello, I need help", 100⟩ "OK" "OK" "OK" "OK" "OK"
    rfl rfl rfl rfl rfl rfl rfl rfl rfl

/-- C7 counterexample: a conversation that has no customer-authored thread at
all (its only thread is an agent `message` thread, as posted by the server
itself) is not rejected by the intent handler: the handler analyzes the agent
thread, issues the AI-gateway call and the tag and timeline side effects, and
returns success, contradicting the claim that every context without a
customer message fails fast with zero AI calls. -/
theorem c7_agent_message_only_not_failfast :
    (∀ t ∈ convAgentOnly.threads, t.type ≠ "customer")
      ∧ handleIntentDetect envAllOk convAgentOnly
          = (intentSuccessResponse 5 none "OK" 16,
            [GatewayCall.aiIntent "Welkom bij Box 3" "Welkom",
              GatewayCall.addTags 5 ["OK"],
              GatewayCall.addLineItem 5 "Intent detected: OK"])
      ∧ ((handleIntentDetect envAllOk convAgentOnly).2.countP fun c => isAiCall c) = 1 := by
  refine ⟨by decide, rfl, rfl⟩

/-- C7 amended: the intent handler fails fast with the 400
`No customer message found in conversation` response and zero gateway calls
exactly when the conversation has no thread of type `customer` or `message`;
a conversation whose only threads are agent `message` threads is not detected
as lacking a customer message. -/
theorem c7_no_customer_or_message_thread_failfast (env : GwEnv) (conv : Conversation)
    (cid : Nat)
    (hid : conv.id = some cid)
    (hth : customerThreads conv.threads = []) :
    handleIntentDetect env conv = (noCustomerMessageResponse cid, []) := by
  have hlat : latestCustomerThread conv.threads = none := by
    unfold latestCustomerThread
    rw [hth]
    rfl
  simp [handleIntentDetect, hid, hlat]

/-- Witness for the amended C7 at a conversation with no thread at all. -/
theorem c7_no_customer_or_message_thread_failfast_witness :
    handleIntentDetect envAllOk convEmptyThreads = (noCustomerMessageResponse 7, []) :=
  c7_no_customer_or_message_thread_failfast envAllOk convEmptyThreads 7 rfl rfl

/-- C8 counterexample: on a thread sequence holding a customer entry at time
1 and an agent `message` entry at time 2, the entry the intent handler
selects as the most recent reply is the agent entry, which is not
customer-authored. -/
theorem c8_latest_reply_not_customer_authored :
    latestCustomerThread [thCustomer1, thAgentMessage2] = some thAgentMessage2
      ∧ thAgentMessage2.type ≠ "customer"
      ∧ thCustomer1 ∈ [thCustomer1, thAgentMessage2]
      ∧ thCustomer1.type = "customer" := by
  refine ⟨rfl, by decide, by decide, rfl⟩

/-- C8 amended: the entry selected as the most recent reply is the latest
entry among the threads of type `customer` or `message` (a set that also
contains agent messages): the selected entry has one of those two types and
no entry of either type — in particular no customer-authored entry — has a
strictly later creation time; the selected entry itself need not be
customer-authored. -/
theorem c8_latest_among_customer_and_message (threads : List Thread) (t : Thread)
    (h : latestCustomerThread threads = some t) :
    (t.type = "customer" ∨ t.type = "message")
      ∧ ∀ u ∈ threads, (u.type = "customer" ∨ u.type = "message")
          → u.createdAt ≤ t.createdAt := by
  obtain ⟨hmem, hmax⟩ := latestByCreatedAt_spec _ t h
  have hprop : t ∈ threads ∧ (t.type == "customer" || t.type == "message") = true := by
    simpa [customerThreads, List.mem_filter] using hmem
  constructor
  · have htype := hprop.2
    simp only [Bool.or_eq_true, beq_iff_eq] at htype
    exact htype
  · intro u hu htype
    refine hmax u (List.mem_filter.mpr ⟨hu, ?_⟩)
    rcases htype with h1 | h1 <;> simp [h1]

/-- Witness for the amended C8: on the two-thread sequence the selected entry
is the later agent `message` entry and bounds both entries. -/
theorem c8_latest_among_customer_and_message_witness :
    (thAgentMessage2.type = "customer" ∨ thAgentMessage2.type = "message")
      ∧ ∀ u ∈ [thCustomer1, thAgentMessage2],
          (u.type = "customer" ∨ u.type = "message")
            → u.createdAt ≤ thAgentMessage2.createdAt :=
  c8_latest_among_customer_and_message [thCustomer1, thAgentMessage2] thAgentMessage2 rfl

/-- C9 counterexample: on the claim's verbatim input mapping (ids 1, 2, 3),
the formatter's hard-coded internal-exclusion set is 9, 10, 27, so the field
with id 1 named `Internal` is not excluded: the output block also lists the
`Internal` entry, not only the `Savings` entry. -/
theorem c9_internal_id_one_not_excluded :
    formatCustomFieldsForPrompt conv123
      = "\n\n=== CUSTOMER DATA (Custom Fields) ===\n- Internal: x\n- Savings: 1000\n=== END OF CUSTOMER DATA ==="
      ∧ formatCustomFieldsForPrompt conv123
          ≠ "\n\n=== CUSTOMER DATA (Custom Fields) ===\n- Savings: 1000\n=== END OF CUSTOMER DATA ===" := by
  refine ⟨rfl, by decide⟩

/-- C9 amended: the custom-field block lists exactly the fields whose value
is truthy and not whitespace-only and whose id is outside the hard-coded
internal-exclusion set 9 (Form ID), 10 (Active Step), 27 (Restore Link); with
the `Internal` field of the claim's instance keyed at id 9 instead of 1, the
output lists only the `Savings` entry. -/
theorem c9_custom_field_filter_exact :
    (∀ (fields : List CustomField) (f : CustomField),
      f ∈ nonEmptyCustomFields fields
        ↔ f ∈ fields ∧ f.value ≠ "" ∧ jsTrim f.value ≠ "" ∧ f.id ∉ excludedFieldIds)
    ∧ formatCustomFieldsForPrompt conv9
        = "\n\n=== CUSTOMER DATA (Custom Fields) ===\n- Savings: 1000\n=== END OF CUSTOMER DATA ===" := by
  constructor
  · intro fields f
    simp only [nonEmptyCustomFields, List.mem_filter, Bool.and_eq_true, bne_iff_ne,
      Bool.not_eq_true', List.contains, List.elem_eq_mem, decide_eq_false_iff_not, ne_eq]
    tauto
  · rfl

/-- C10: in the newer variant, on every successful welcome dispatch the
upload-request message is scheduled 30 minutes (1,800,000 ms) after dispatch
time via `calculateScheduledDateTime(30, 'minutes')`, while the outcome's
`upload_request_delay` field, the success message and the timeline-entry text
all report a 5 minute delay; and `calculateScheduledDateTime` with an
unrecognized unit falls back to a zero delay. -/
theorem c10_thirty_minute_schedule_reported_as_five (env : GwEnv) (nowMs : Nat)
    (conv : Conversation) (cid : Nat) (w r1 r2 r3 r4 : String)
    (hid : conv.id = some cid)
    (h0 : env 0 = Except.ok w) (h1 : env 1 = Except.ok r1) (h2 : env 2 = Except.ok r2)
    (h3 : env 3 = Except.ok r3) (h4 : env 4 = Except.ok r4) :
    handleWelcomeGenerate env nowMs conv
      = (welcomeSuccessResponse cid w.length,
        [GatewayCall.aiWelcome (welcomeCustomerMessage conv) (convSubject conv)
            (welcomeCustomerName conv) (convLanguage conv),
          GatewayCall.sendMessage cid w none,
          GatewayCall.sendMessage cid (uploadRequestBody (convLanguage conv))
            (some (nowMs + 30 * 60 * 1000)),
          GatewayCall.addTags cid ["DOCS_REQUESTED"],
          GatewayCall.addLineItem cid (welcomeLineItemText w)])
      ∧ (welcomeSuccessResponse cid w.length).upload_request_delay = some "5 minutes"
      ∧ (welcomeSuccessResponse cid w.length).message
          = some "Welcome email sent and upload request scheduled with 5 minute delay"
      ∧ welcomeLineItemText w
          = "Email 1: Welcome email sent (AI-generated, " ++ toString w.length
              ++ " chars) | Email 2: Upload request scheduled (5 minute delay)"
      ∧ calculateScheduledDateTime nowMs 30 "minutes" = nowMs + 30 * 60 * 1000
      ∧ (∀ (n v : Nat) (u : String), u ≠ "minutes" → u ≠ "hours" → u ≠ "days" →
          calculateScheduledDateTime n v u = n) := by
  have hcalc : calculateScheduledDateTime nowMs 30 "minutes" = nowMs + 30 * 60 * 1000 := by
    unfold calculateScheduledDateTime
    rw [if_pos rfl]
  refine ⟨?_, rfl, rfl, rfl, hcalc, ?_⟩
  · rw [handleWelcomeGenerate_all_ok env nowMs conv cid w r1 r2 r3 r4 hid h0 h1 h2 h3 h4,
      hcalc]
  · intro n v u hu1 hu2 hu3
    simp [calculateScheduledDateTime, hu1, hu2, hu3]

/-- Witness for C10 at the concrete end-to-end conversation with all calls
succeeding and dispatch time 0. -/
theorem c10_thirty_minute_schedule_reported_as_five_witness :
    handleWelcomeGenerate envAllOk 0 conv42
      = (welcomeSuccessResponse 42 2,
        [GatewayCall.aiWelcome (welcomeCustomerMessage conv42) (convSubject conv42)
            (welcomeCustomerName conv42) (convLanguage conv42),
          GatewayCall.sendMessage 42 "OK" none,
          GatewayCall.sendMessage 42 (uploadRequestBody (convLanguage conv42))
            (some (0 + 30 * 60 * 1000)),
          GatewayCall.addTags 42 ["DOCS_REQUESTED"],
          GatewayCall.addLineItem 42 (welcomeLineItemText "OK")])
      ∧ (welcomeSuccessResponse 42 2).upload_request_delay = some "5 minutes"
      ∧ (welcomeSuccessResponse 42 2).message
          = some "Welcome email sent and upload request scheduled with 5 minute delay"
      ∧ welcomeLineItemText "OK"
          = "Email 1: Welcome email sent (AI-generated, " ++ toString ("OK").length
              ++ " chars) | Email 2: Upload request scheduled (5 minute delay)"
      ∧ calculateScheduledDateTime 0 30 "minutes" = 0 + 30 * 60 * 1000
      ∧ (∀ (n v : Nat) (u : String), u ≠ "minutes" → u ≠ "hours" → u ≠ "days" →
          calculateScheduledDateTime n v u = n) :=
  c10_thirty_minute_schedule_reported_as_five envAllOk 0 conv42 42 "OK" "OK" "OK" "OK" "OK"
    rfl rfl rfl rfl rfl rfl
